import Mathlib

/-
Verification of the key-normalization, orchestration and warm-cache
fan-out logic of the image-optimization repository, as a shallow
embedding in Lean.

The embedding follows the two deployed handlers:
  * `UrlRewrite` models src/functions/url-rewrite/index.js (CloudFront
    function rewriting a request into a canonical variant key).
  * `ImageProcessing` models src/functions/image-processing/index.mjs
    (the on-demand transformation handler and the S3-upload fan-out).
External collaborators (S3, the Sharp codec, the clock) are passed in as
explicit oracle values recording the outcome of each external call.
-/

set_option maxHeartbeats 1000000

namespace Js

/-- JS `String.prototype.includes`: substring containment test. -/
def includes (s pat : String) : Bool :=
  decide (List.IsInfix pat.toList s.toList)

/-- Numeric value of a hexadecimal digit character, if any. -/
def hexDigitVal (c : Char) : Option Nat :=
  if c.isDigit then some (c.toNat - 48)
  else if 'a' ≤ c && c ≤ 'f' then some (c.toNat - 87)
  else if 'A' ≤ c && c ≤ 'F' then some (c.toNat - 55)
  else none

/-- Value of a digit string in the given base (digits assumed valid). -/
def digitsVal (base : Nat) (l : List Char) : Nat :=
  l.foldl (fun acc c => acc * base + ((hexDigitVal c).getD 0)) 0

/-- JS `parseInt(s)` with no radix argument: skip leading whitespace, an
optional sign, then either a `0x`/`0X` hexadecimal literal or the longest
leading run of decimal digits; `none` models `NaN`. -/
def parseInt (s : String) : Option Int :=
  let cs := s.toList.dropWhile Char.isWhitespace
  let sign : Int := match cs with | '-' :: _ => -1 | _ => 1
  let cs := match cs with | '-' :: r => r | '+' :: r => r | r => r
  match cs with
  | '0' :: c :: r =>
    if c = 'x' || c = 'X' then
      let ds := r.takeWhile (fun d => (hexDigitVal d).isSome)
      if ds.isEmpty then none else some (sign * (digitsVal 16 ds : Nat))
    else
      some (sign * (digitsVal 10 (('0' :: c :: r).takeWhile Char.isDigit) : Nat))
  | cs2 =>
    let ds := cs2.takeWhile Char.isDigit
    if ds.isEmpty then none else some (sign * (digitsVal 10 ds : Nat))

/-- Split a character list at every occurrence of `sep` (JS
`String.prototype.split` with a one-character separator). -/
def splitCharList (sep : Char) : List Char → List (List Char)
  | [] => [[]]
  | c :: rest =>
    match splitCharList sep rest with
    | [] => [[]]
    | h :: t => if c = sep then [] :: h :: t else (c :: h) :: t

/-- JS `s.split(sep)` for a one-character separator. -/
def split (sep : Char) (s : String) : List String :=
  (splitCharList sep s.toList).map (fun l => String.mk l)

/-- JS `s.replace(/from/g, to)` for one-character `from`/`to`. -/
def replaceChar (from1 to1 : Char) (s : String) : String :=
  String.mk (s.toList.map (fun c => if c = from1 then to1 else c))

/-- JS `String.prototype.startsWith`. -/
def startsWith (s pre : String) : Bool :=
  decide (List.IsPrefix pre.toList s.toList)

end Js

instance {α β : Type} [DecidableEq α] [DecidableEq β] : DecidableEq (Except α β) := fun x y =>
  match x, y with
  | Except.ok a, Except.ok b =>
    if h : a = b then isTrue (by rw [h]) else isFalse (fun he => h (Except.ok.inj he))
  | Except.error a, Except.error b =>
    if h : a = b then isTrue (by rw [h]) else isFalse (fun he => h (Except.error.inj he))
  | Except.ok _, Except.error _ => isFalse (fun he => Except.noConfusion he)
  | Except.error _, Except.ok _ => isFalse (fun he => Except.noConfusion he)

namespace UrlRewrite

/-- `COMMON_WIDTHS` of src/functions/url-rewrite/index.js. -/
def COMMON_WIDTHS : List Int := [300, 600, 800, 1200]

/-- A CloudFront function request.  `acceptHeader = none` means the
`accept` header is absent; `some none` models a header object whose
`value` is not a usable string (reading `.value.includes` then throws);
`some (some a)` is a header with string value `a`.  `querystring` is the
JS object mapping parameter names to their `value` strings (keys are
unique in a JS object). -/
structure CfRequest where
  uri : String
  acceptHeader : Option (Option String)
  querystring : List (String × String)
deriving DecidableEq, Repr

/-- Format produced by the Accept-header negotiation of the handler:
`avif` if the header value contains "avif", else `webp` if it contains
"webp", else `jpeg`. -/
def pickFormat (a : String) : String :=
  if Js.includes a "avif" then "avif"
  else if Js.includes a "webp" then "webp"
  else "jpeg"

/-- The negotiated format of a request (malformed or absent header gives
the default `jpeg`; on a malformed header the code throws before using
the default, which `runTry` models separately). -/
def negotiatedFormat (req : CfRequest) : String :=
  match req.acceptHeader with
  | some (some a) => pickFormat a
  | _ => "jpeg"

/-- The final normalization branch of the handler: build
`normalizedOperations` from `format` and a validated/clamped `width`,
join them with commas, and rewrite the uri. -/
def mainBranch (req : CfRequest) (format : String) : CfRequest :=
  let normWidth : Option String :=
    match req.querystring.lookup "width" with
    | some wv =>
      if wv = "" then none
      else
        match Js.parseInt wv with
        | some n => if 0 < n then some (toString (if n > 4000 then (4000 : Int) else n)) else none
        | none => none
    | none => none
  let arr := ("format=" ++ format) :: (match normWidth with
    | some w => ["width=" ++ w]
    | none => [])
  { req with uri := req.uri ++ "/" ++ String.intercalate "," arr, querystring := [] }

/-- Body of the handler after format negotiation: the no-query branch,
the pre-generated COMMON_WIDTHS fast path, then the normalization
branch. -/
def runBody (req : CfRequest) (format : String) : CfRequest :=
  if req.querystring.isEmpty then
    { req with uri := req.uri ++ "/format=" ++ format, querystring := [] }
  else
    match req.querystring.lookup "width" with
    | some wv =>
      match Js.parseInt wv with
      | some n =>
        if n ∈ COMMON_WIDTHS then
          { req with uri := req.uri ++ "/format=" ++ format ++ ",width=" ++ toString n,
                     querystring := [] }
        else mainBranch req format
      | none => mainBranch req format
    | none => mainBranch req format

/-- The `try` block of the handler.  The only operation that can throw is
reading `.value.includes` on a malformed accept-header object, which
happens before any mutation of the request, so the error carries the
request in its original state. -/
def runTry (req : CfRequest) : Except CfRequest CfRequest :=
  match req.acceptHeader with
  | some none => Except.error req
  | some (some a) => Except.ok (runBody req (pickFormat a))
  | none => Except.ok (runBody req "jpeg")

/-- The handler of src/functions/url-rewrite/index.js: run the try block;
on an exception return the (unmutated) request unchanged. -/
def handlerJs (req : CfRequest) : CfRequest :=
  match runTry req with
  | Except.ok r => r
  | Except.error r => r

/-- Canonical width suffix of the emitted key, as a function of the
looked-up `width` query parameter only. -/
def widthSuffix (w : Option String) : String :=
  match w with
  | none => ""
  | some v =>
    match Js.parseInt v with
    | some n => if 0 < n then ",width=" ++ toString (if n > 4000 then (4000 : Int) else n) else ""
    | none => ""

end UrlRewrite

namespace ImageProcessing

/-- `COMMON_WIDTHS` of src/functions/image-processing/index.mjs. -/
def COMMON_WIDTHS : List Int := [640, 750, 828, 1080, 1200, 1920]

/-- Path splitting of the GET handler: `split('/')`, `pop()` the
operations segment, `shift()` the leading empty segment, `join('/')` the
original image path. -/
def splitPath (path : String) : String × String :=
  let arr := Js.split '/' path
  (String.intercalate "/" (arr.dropLast.drop 1), arr.getLast?.getD "")

/-- `Object.fromEntries(opsPart.split(',').map(op => op.split('=')))`
as an entry list; an operation without `=` has an `undefined` value
(`none`). -/
def parseOperations (opsPart : String) : List (String × Option String) :=
  (Js.split ',' opsPart).map (fun op =>
    let parts := Js.split '=' op
    (parts.headD "", (parts.drop 1).head?))

/-- Truthy value of `operationsJSON[k]`: the value of the last entry for
`k` (fromEntries keeps the last duplicate), `none` when the key is
absent or its value is `undefined` or the empty string. -/
def getOp (ops : List (String × Option String)) (k : String) : Option String :=
  match ops.reverse.lookup k with
  | some (some v) => if v = "" then none else some v
  | _ => none

/-- Environment plus per-request oracle of the GET handler.
`transformOutcome` records, for the resize argument actually passed
(`none` = resize called with no width; `some none` = width set to `NaN`;
`some (some n)` = width set to `n`) and the format actually passed, what
the Sharp pipeline through `toBuffer` did: a thrown error or the byte
length of the produced buffer. -/
structure Orch where
  method : String
  path : String
  transformedBucket : Option String
  maxImageSize : Int
  cacheTTL : String
  fetch : Except Unit String
  transformOutcome : Option (Option Int) → Option String → Except Unit Int
  bodyBase64 : String
  putOk : Bool
  d1 : Nat
  d2 : Nat
  d3 : Nat

/-- A Lambda function-URL response. -/
structure HttpResponse where
  statusCode : Nat
  body : Option String := none
  isBase64Encoded : Bool := false
  headers : List (String × String) := []
deriving DecidableEq, Repr

/-- `sendError` of index.mjs: log and return `{statusCode, body}`. -/
def sendError (statusCode : Nat) (body : String) : HttpResponse :=
  { statusCode := statusCode, body := some body }

/-- The width argument the handler passes to `resize`: the raw
`parseInt` of the `width` operation, with no positivity check and no
clamping (`some none` models passing `NaN`). -/
def resizeArgOf (o : Orch) : Option (Option Int) :=
  match getOp (parseOperations (splitPath o.path).2) "width" with
  | some v => some (Js.parseInt v)
  | none => none

/-- The truthy `format` operation of the request. -/
def formatOpOf (o : Orch) : Option String :=
  getOp (parseOperations (splitPath o.path).2) "format"

/-- Content-type resolution of the transform step: explicit formats map
to their MIME type (unknown formats to `image/jpeg`); with no format
operation an SVG source is re-declared as PNG. -/
def contentTypeAfter (fetched : String) (formatOp : Option String) : String :=
  match formatOp with
  | some f =>
    if f = "jpeg" then "image/jpeg"
    else if f = "webp" then "image/webp"
    else if f = "avif" then "image/avif"
    else "image/jpeg"
  | none => if fetched = "image/svg+xml" then "image/png" else fetched

/-- The GET path of `handler` in src/functions/image-processing/index.mjs:
method check, origin fetch, transform, size guard, best-effort
persistence, then 200 / 302 / 403 / 5xx selection. -/
def orchHandler (o : Orch) : HttpResponse :=
  if o.method ≠ "GET" then sendError 400 "Only GET method is supported"
  else
    match o.fetch with
    | Except.error _ => sendError 500 "Error downloading original image"
    | Except.ok fetchedCT =>
      let originalImagePath := (splitPath o.path).1
      let opsPart := (splitPath o.path).2
      let timing1 := "img-download;dur=" ++ toString o.d1
      match o.transformOutcome (resizeArgOf o) (formatOpOf o) with
      | Except.error _ => sendError 500 "error transforming image"
      | Except.ok len =>
        let contentType := contentTypeAfter fetchedCT (formatOpOf o)
        let timing2 := timing1 ++ ",img-transform;dur=" ++ toString o.d2
        let imageTooBig := len > o.maxImageSize
        let ok200 := fun (timing : String) =>
          { statusCode := 200, body := some o.bodyBase64, isBase64Encoded := true,
            headers := [("Content-Type", contentType), ("Cache-Control", o.cacheTTL),
                        ("Server-Timing", timing)] : HttpResponse }
        match o.transformedBucket with
        | some _ =>
          if o.putOk then
            let timing3 := timing2 ++ ",img-upload;dur=" ++ toString o.d3
            if imageTooBig then
              { statusCode := 302,
                headers := [("Location", "/" ++ originalImagePath ++ "?"
                                ++ Js.replaceChar ',' '&' opsPart),
                            ("Cache-Control", "private,no-store"),
                            ("Server-Timing", timing3)] }
            else ok200 timing3
          else
            if imageTooBig then sendError 403 "Requested transformed image is too big"
            else ok200 timing2
        | none =>
          if imageTooBig then sendError 403 "Requested transformed image is too big"
          else ok200 timing2

/-- Per-cell oracle of `processAndUploadVariant`: what the Sharp pipeline
did (`Except.error m` = threw with message `m`; `Except.ok none` = falsy
metadata, skip; `Except.ok (some len)` = buffer of `len` bytes) and
whether the S3 put threw. -/
structure CellOracle where
  sharpOutcome : Except String (Option Nat)
  putThrow : Option String

/-- `processAndUploadVariant` of index.mjs for a `(format, width?)` cell:
the try body skips on invalid metadata or empty buffer, otherwise
uploads under the canonical variant key; the catch swallows every error
except those whose message contains "memory" or "allocation", which are
rethrown.  Result: `ok (some key)` = persisted under `key`; `ok none` =
skipped or error swallowed; `error m` = rethrown. -/
def pavTryBody (spec : String × Option Int) (srcKey : String)
    (c : CellOracle) : Except String (Option String) :=
  match c.sharpOutcome with
  | Except.error m => Except.error m
  | Except.ok none => Except.ok none
  | Except.ok (some len) =>
    if len = 0 then Except.ok none
    else
      let optimizedKey := match spec.2 with
        | some w => srcKey ++ "/format=" ++ spec.1 ++ ",width=" ++ toString w
        | none => srcKey ++ "/format=" ++ spec.1
      match c.putThrow with
      | some m => Except.error m
      | none => Except.ok (some optimizedKey)

def processAndUploadVariant (spec : String × Option Int) (srcKey : String)
    (c : CellOracle) : Except String (Option String) :=
  match pavTryBody spec srcKey c with
  | Except.ok r => Except.ok r
  | Except.error m =>
    if Js.includes m "memory" || Js.includes m "allocation" then Except.error m
    else Except.ok none

/-- The `optimizationTasks` matrix of `handleS3Upload`: webp only (at
no-width plus each common width) for large sources, webp and avif for
the rest. -/
def buildTasks (isLarge : Bool) : List (String × Option Int) :=
  if isLarge then
    ("webp", none) :: COMMON_WIDTHS.map (fun w => ("webp", some w))
  else
    ("webp", none) :: ("avif", none) ::
      COMMON_WIDTHS.flatMap (fun w => [("webp", some w), ("avif", some w)])

/-- Oracle of one S3-upload event: outcome of the original-image get,
its declared content type and length, and the per-cell oracles, indexed
by the `(format, width?)` spec of the cell (cells are independent; the spec
list is duplicate-free). -/
structure UploadEventOracle where
  getOk : Bool
  contentType : String
  contentLength : Int
  cells : String × Option Int → CellOracle

/-- Observable outcome of `handleS3Upload`: the returned response plus
the keys actually persisted to the transformed-variant store. -/
structure UploadRun where
  statusCode : Nat
  body : String
  persisted : List String
deriving DecidableEq, Repr

/-- `handleS3Upload` of index.mjs: skip non-images, reduce the matrix for
sources over 1MB, dispatch all cells and join with
`Promise.allSettled` (every cell settles; rejections are only logged),
then return 200. -/
def handleS3Upload (srcKey : String) (o : UploadEventOracle) : UploadRun :=
  if ¬ o.getOk then
    { statusCode := 500, body := "Error processing new image upload", persisted := [] }
  else if ¬ Js.startsWith o.contentType "image/" then
    { statusCode := 200, body := "Skipped non-image file", persisted := [] }
  else
    let isLarge : Bool := decide (o.contentLength > 1048576)
    let results := (buildTasks isLarge).map
      (fun spec => processAndUploadVariant spec srcKey (o.cells spec))
    { statusCode := 200, body := "Image optimization completed",
      persisted := results.filterMap (fun r => match r with
        | Except.ok (some k) => some k
        | _ => none) }

/-- The transformed-variant store key the orchestrator would persist a
normalized uri under: `originalImagePath ++ "/" ++ operations`. -/
def storeKeyOfUri (uri : String) : String :=
  (splitPath uri).1 ++ "/" ++ (splitPath uri).2

/-- The canonical variant key `processAndUploadVariant` uploads a
`(format, width?)` cell under (spec-side restatement of `optimizedKey`). -/
def canonicalKey (srcKey : String) (spec : String × Option Int) : String :=
  match spec.2 with
  | some w => srcKey ++ "/format=" ++ spec.1 ++ ",width=" ++ toString w
  | none => srcKey ++ "/format=" ++ spec.1

end ImageProcessing

theorem strExt {a b : String} (h : a.data = b.data) : a = b := String.ext h

theorem litSlashFormat : ("/format=" : String) = "/" ++ "format=" := rfl

theorem litCommaWidth : (",width=" : String) = "," ++ "width=" := rfl

namespace UrlRewrite

theorem strEqNoWidth (u f : String) :
    u ++ "/" ++ ("format=" ++ f) = u ++ "/format=" ++ f ++ "" := by
  apply strExt
  simp [String.data_append, litSlashFormat]

theorem strEqWidth (u f w : String) :
    u ++ "/" ++ ("format=" ++ f ++ "," ++ ("width=" ++ w)) =
      u ++ "/format=" ++ f ++ (",width=" ++ w) := by
  apply strExt
  simp [String.data_append, litSlashFormat, litCommaWidth]

theorem strEqFast (u f w : String) :
    u ++ "/format=" ++ f ++ ",width=" ++ w = u ++ "/format=" ++ f ++ (",width=" ++ w) := by
  apply strExt
  simp [String.data_append]

/-- Every width in the COMMON_WIDTHS list of the normalizer is positive and at
most 4000, so the fast path and the clamping branch agree on it. -/
theorem commonWidths_bounds {n : Int} (h : n ∈ COMMON_WIDTHS) : 0 < n ∧ ¬ n > 4000 := by
  simp only [COMMON_WIDTHS, List.mem_cons, List.not_mem_nil, or_false] at h
  rcases h with rfl | rfl | rfl | rfl <;> norm_num

/-- Characterization of the handler body: whatever branch is taken, the
rewritten uri is the original uri extended with the negotiated format and
the canonical width suffix of the looked-up `width` parameter, and the
query string is cleared. -/
theorem runBody_characterization (req : CfRequest) (f : String) :
    runBody req f =
      { req with
          uri := req.uri ++ "/format=" ++ f ++ widthSuffix (req.querystring.lookup "width"),
          querystring := [] } := by
  unfold runBody
  rcases hq : req.querystring with _ | ⟨p, l⟩
  · simp [hq, widthSuffix]
  · simp only [List.isEmpty_cons, Bool.false_eq_true, if_false]
    rcases hl : (p :: l).lookup "width" with _ | v
    · simp only [mainBranch, hq, hl, widthSuffix]
      rw [String.intercalate]
      exact congrArg (fun u => { req with uri := u, querystring := [] }) (strEqNoWidth _ _)
    · rcases hv : Js.parseInt v with _ | n
      · simp only [hv, mainBranch, hq, hl, widthSuffix]
        by_cases he : v = ""
        · simp only [he, if_true, if_pos rfl]
          rw [String.intercalate]
          exact congrArg (fun u => { req with uri := u, querystring := [] }) (strEqNoWidth _ _)
        · simp only [if_neg he, hv]
          rw [String.intercalate]
          exact congrArg (fun u => { req with uri := u, querystring := [] }) (strEqNoWidth _ _)
      · by_cases hmem : n ∈ COMMON_WIDTHS
        · obtain ⟨hpos, hle⟩ := commonWidths_bounds hmem
          simp only [hv, if_pos hmem, widthSuffix, if_pos hpos, if_neg hle]
          exact congrArg (fun u => { req with uri := u, querystring := [] }) (strEqFast _ _ _)
        · have he : v ≠ "" := by
            intro h
            rw [h] at hv
            have hmt : Js.parseInt "" = none := rfl
            rw [hmt] at hv
            exact Option.noConfusion hv
          simp only [hv, if_neg hmem, mainBranch, hq, hl, if_neg he, widthSuffix]
          by_cases hpos : 0 < n
          · simp only [if_pos hpos]
            rw [String.intercalate]
            exact congrArg (fun u => { req with uri := u, querystring := [] }) (strEqWidth _ _ _)
          · simp only [if_neg hpos]
            rw [String.intercalate]
            exact congrArg (fun u => { req with uri := u, querystring := [] }) (strEqNoWidth _ _)

/-- Characterization of the full handler on requests whose accept header,
when present, carries a string value (the CloudFront event shape). -/
theorem handler_characterization (req : CfRequest) (h : req.acceptHeader ≠ some none) :
    handlerJs req =
      { req with
          uri := req.uri ++ "/format=" ++ negotiatedFormat req
                   ++ widthSuffix (req.querystring.lookup "width"),
          querystring := [] } := by
  unfold handlerJs runTry
  rcases ha : req.acceptHeader with _ | _ | a
  · simpa [negotiatedFormat, ha] using runBody_characterization req "jpeg"
  · exact absurd ha h
  · simpa [negotiatedFormat, ha] using runBody_characterization req (pickFormat a)

end UrlRewrite

namespace ImageProcessing

/-- The try body of a cell either skips, throws the message given by the oracle, or
uploads exactly the canonical variant key. -/
theorem pavTryBody_cases (spec : String × Option Int) (srcKey : String) (c : CellOracle) :
    pavTryBody spec srcKey c = Except.ok none ∨
    (∃ m, pavTryBody spec srcKey c = Except.error m) ∨
    pavTryBody spec srcKey c = Except.ok (some (canonicalKey srcKey spec)) := by
  rcases c with ⟨so, pt⟩
  rcases so with m2 | _ | len
  · exact Or.inr (Or.inl ⟨m2, rfl⟩)
  · exact Or.inl rfl
  · by_cases hz : len = 0
    · refine Or.inl ?_
      simp [pavTryBody, hz]
    · rcases pt with _ | m2
      · refine Or.inr (Or.inr ?_)
        simp only [pavTryBody, if_neg hz, canonicalKey]
      · refine Or.inr (Or.inl ⟨m2, ?_⟩)
        simp [pavTryBody, hz]

/-- A cell that reports a successful upload uploaded exactly its
canonical variant key. -/
theorem pav_ok_key (spec : String × Option Int) (srcKey : String) (c : CellOracle)
    (k : String) (h : processAndUploadVariant spec srcKey c = Except.ok (some k)) :
    k = canonicalKey srcKey spec := by
  unfold processAndUploadVariant at h
  rcases pavTryBody_cases spec srcKey c with hb | ⟨m, hb⟩ | hb <;> rw [hb] at h
  · exact Option.noConfusion (Except.ok.inj h)
  · have h2 : (if (Js.includes m "memory" || Js.includes m "allocation") = true then
        (Except.error m : Except String (Option String)) else Except.ok none) =
        Except.ok (some k) := h
    by_cases hin : (Js.includes m "memory" || Js.includes m "allocation") = true
    · rw [if_pos hin] at h2
      exact Except.noConfusion h2
    · rw [if_neg hin] at h2
      exact Option.noConfusion (Except.ok.inj h2)
  · exact (Option.some.inj (Except.ok.inj h)).symm

/-- A cell only rethrows errors whose message mentions memory or
allocation. -/
theorem pav_rethrow (spec : String × Option Int) (srcKey : String) (c : CellOracle)
    (m : String) (h : processAndUploadVariant spec srcKey c = Except.error m) :
    (Js.includes m "memory" || Js.includes m "allocation") = true := by
  unfold processAndUploadVariant at h
  rcases pavTryBody_cases spec srcKey c with hb | ⟨m2, hb⟩ | hb <;> rw [hb] at h
  · exact Except.noConfusion h
  · have h2 : (if (Js.includes m2 "memory" || Js.includes m2 "allocation") = true then
        (Except.error m2 : Except String (Option String)) else Except.ok none) =
        Except.error m := h
    by_cases hin : (Js.includes m2 "memory" || Js.includes m2 "allocation") = true
    · rw [if_pos hin] at h2
      rw [← Except.error.inj h2]
      exact hin
    · rw [if_neg hin] at h2
      exact Except.noConfusion h2
  · exact Except.noConfusion h

/-- Membership in the persisted-key list of a fan-out run: a cell that
reports a successful upload contributes its key, whatever every other
cell did. -/
theorem persisted_mem (srcKey : String) (o : UploadEventOracle) (spec : String × Option Int)
    (k : String) (hg : o.getOk = true) (hi : Js.startsWith o.contentType "image/" = true)
    (hmem : spec ∈ buildTasks (decide (o.contentLength > 1048576)))
    (hok : processAndUploadVariant spec srcKey (o.cells spec) = Except.ok (some k)) :
    k ∈ (handleS3Upload srcKey o).persisted := by
  simp only [handleS3Upload, hg, hi]
  simp only [not_true, if_false, Bool.true_eq_false, if_neg, ite_false, ite_true]
  refine List.mem_filterMap.2 ⟨processAndUploadVariant spec srcKey (o.cells spec), ?_, ?_⟩
  · exact List.mem_map_of_mem _ hmem
  · rw [hok]

/-- The response of a fan-out run on an image source is always the 200
completion response, whatever the cells did. -/
theorem fanout_status (srcKey : String) (o : UploadEventOracle)
    (hg : o.getOk = true) (hi : Js.startsWith o.contentType "image/" = true) :
    (handleS3Upload srcKey o).statusCode = 200 ∧
      (handleS3Upload srcKey o).body = "Image optimization completed" := by
  simp [handleS3Upload, hg, hi]

end ImageProcessing


/-- C1 (counterexample): the claim fails as stated.  Two requests with the
same path and the same accept header whose querystrings differ only in the
casing of the `width` parameter name produce different canonical keys,
because the handler of src/functions/url-rewrite/index.js looks up
`querystring['width']` case-sensitively: `width=500` is rewritten to
`/a.jpg/format=jpeg,width=500` while `Width=500` is rewritten to
`/a.jpg/format=jpeg`. -/
theorem c1_casing_changes_key :
    (UrlRewrite.handlerJs
        { uri := "/a.jpg", acceptHeader := none, querystring := [("width", "500")] }).uri ≠
      (UrlRewrite.handlerJs
        { uri := "/a.jpg", acceptHeader := none, querystring := [("Width", "500")] }).uri := by
  decide

/-- C1 (amended): for every pair of inbound requests with the same path,
the same accept header (carrying a string value when present), and
querystrings that agree on the case-sensitive lookup of the `width`
parameter — in particular the same parameters in any order with distinct
keys, plus possibly unrelated extra parameters — the Key Normalizer
produces identical canonical output keys and clears the query string, so
unrelated query parameters never appear in the output key.  (Parameter
name matching is case-sensitive, not case-insensitive as claimed.) -/
theorem c1_key_agreement (r1 r2 : UrlRewrite.CfRequest)
    (hwf : r1.acceptHeader ≠ some none)
    (hu : r1.uri = r2.uri) (ha : r1.acceptHeader = r2.acceptHeader)
    (hw : r1.querystring.lookup "width" = r2.querystring.lookup "width") :
    (UrlRewrite.handlerJs r1).uri = (UrlRewrite.handlerJs r2).uri ∧
      (UrlRewrite.handlerJs r1).querystring = [] ∧
      (UrlRewrite.handlerJs r2).querystring = [] := by
  have hwf2 : r2.acceptHeader ≠ some none := ha ▸ hwf
  rw [UrlRewrite.handler_characterization r1 hwf,
      UrlRewrite.handler_characterization r2 hwf2]
  refine ⟨?_, rfl, rfl⟩
  dsimp only
  rw [hu, hw]
  unfold UrlRewrite.negotiatedFormat
  rw [ha]

/-- C1 (witness): a concrete pair differing in parameter order and in
unrelated extra parameters receives the same canonical key. -/
theorem c1_key_agreement_witness :
    (UrlRewrite.handlerJs
        { uri := "/a.jpg", acceptHeader := some (some "webp"),
          querystring := [("width", "500"), ("x", "1")] }).uri =
      (UrlRewrite.handlerJs
        { uri := "/a.jpg", acceptHeader := some (some "webp"),
          querystring := [("y", "2"), ("width", "500")] }).uri :=
  (c1_key_agreement _ _ (by decide) rfl rfl (by decide)).1

/-- C2: for every request whose `width` query parameter parses to an
integer strictly greater than 4000, the Key Normalizer emits the key
`<path>/format=<negotiated>,width=4000` — the width operation is exactly
the configured maximum, never the raw requested value. -/
theorem c2_width_clamped (req : UrlRewrite.CfRequest) (v : String) (n : Int)
    (hwf : req.acceptHeader ≠ some none)
    (hl : req.querystring.lookup "width" = some v)
    (hp : Js.parseInt v = some n) (hn : n > 4000) :
    (UrlRewrite.handlerJs req).uri =
      req.uri ++ "/format=" ++ UrlRewrite.negotiatedFormat req ++ ",width=4000" := by
  rw [UrlRewrite.handler_characterization req hwf]
  dsimp only
  rw [hl]
  unfold UrlRewrite.widthSuffix
  simp only [hp]
  rw [if_pos (by omega : (0 : Int) < n), if_pos hn]
  have h4 : toString (4000 : Int) = "4000" := rfl
  rw [h4]
  apply strExt
  simp [String.data_append,
    show (",width=4000" : String) = ",width=" ++ "4000" from rfl]

/-- C2 (witness): `width=5000` is rewritten to `width=4000` in the key. -/
theorem c2_width_clamped_witness :
    (UrlRewrite.handlerJs
        { uri := "/images/a.jpg", acceptHeader := some (some "webp"),
          querystring := [("width", "5000")] }).uri = "/images/a.jpg/format=webp,width=4000" := by
  have h := c2_width_clamped
    { uri := "/images/a.jpg", acceptHeader := some (some "webp"),
      querystring := [("width", "5000")] }
    "5000" 5000 (by decide) rfl (by decide) (by decide)
  rw [h]
  decide

/-- C3: for every request whose `width` query parameter is non-numeric
(`parseInt` fails) or parses to an integer at most zero, the Key
Normalizer emits the key `<path>/format=<negotiated>` with no width
operation at all, returning normally rather than erroring. -/
theorem c3_invalid_width_dropped (req : UrlRewrite.CfRequest) (v : String)
    (hwf : req.acceptHeader ≠ some none)
    (hl : req.querystring.lookup "width" = some v)
    (hbad : Js.parseInt v = none ∨ ∃ n, Js.parseInt v = some n ∧ n ≤ 0) :
    (UrlRewrite.handlerJs req).uri =
      req.uri ++ "/format=" ++ UrlRewrite.negotiatedFormat req := by
  rw [UrlRewrite.handler_characterization req hwf]
  dsimp only
  rw [hl]
  unfold UrlRewrite.widthSuffix
  rcases hbad with hno | ⟨n, hp, hn⟩
  · simp only [hno]
    rw [String.append_empty]
  · simp only [hp]
    rw [if_neg (by omega : ¬ (0 : Int) < n)]
    rw [String.append_empty]

/-- C3 (witness): a non-numeric width and a non-positive width are both
dropped from the key. -/
theorem c3_invalid_width_dropped_witness :
    (UrlRewrite.handlerJs
        { uri := "/a.jpg", acceptHeader := some (some "webp"),
          querystring := [("width", "abc")] }).uri = "/a.jpg/format=webp" ∧
      (UrlRewrite.handlerJs
        { uri := "/a.jpg", acceptHeader := some (some "webp"),
          querystring := [("width", "-7")] }).uri = "/a.jpg/format=webp" := by
  constructor
  · have h := c3_invalid_width_dropped
      { uri := "/a.jpg", acceptHeader := some (some "webp"), querystring := [("width", "abc")] }
      "abc" (by decide) rfl (Or.inl (by decide))
    rw [h]
    decide
  · have h := c3_invalid_width_dropped
      { uri := "/a.jpg", acceptHeader := some (some "webp"), querystring := [("width", "-7")] }
      "-7" (by decide) rfl (Or.inr ⟨-7, by decide, by decide⟩)
    rw [h]
    decide

/-- C4: for every request on which the handler body throws (the only
throw site reads `.value` of a malformed accept-header object, before any
mutation), the catch block returns the original request unchanged — same
uri and same query string — instead of raising an unhandled fault. -/
theorem c4_fail_open (req r : UrlRewrite.CfRequest)
    (h : UrlRewrite.runTry req = Except.error r) :
    UrlRewrite.handlerJs req = req := by
  have hr : r = req := by
    unfold UrlRewrite.runTry at h
    rcases ha : req.acceptHeader with _ | _ | a <;> rw [ha] at h
    · exact Except.noConfusion h
    · exact (Except.error.inj h).symm
    · exact Except.noConfusion h
  unfold UrlRewrite.handlerJs
  rw [h, hr]

/-- C4 (witness): a request whose accept header has no usable string
value makes the body throw and is passed through unchanged. -/
theorem c4_fail_open_witness :
    UrlRewrite.runTry
        { uri := "/a.jpg", acceptHeader := some none, querystring := [("width", "9")] } =
      Except.error { uri := "/a.jpg", acceptHeader := some none, querystring := [("width", "9")] } ∧
    UrlRewrite.handlerJs
        { uri := "/a.jpg", acceptHeader := some none, querystring := [("width", "9")] } =
      { uri := "/a.jpg", acceptHeader := some none, querystring := [("width", "9")] } :=
  ⟨rfl, c4_fail_open _ _ rfl⟩

namespace ImageProcessing

/-- Oversized result with the store unconfigured or the put failing
yields exactly the 403 size-limit error response of `sendError`. -/
theorem oversized_unpersisted_403 (o : Orch) (ct : String) (len : Int)
    (hm : o.method = "GET") (hf : o.fetch = Except.ok ct)
    (ht : o.transformOutcome (resizeArgOf o) (formatOpOf o) = Except.ok len)
    (hbig : len > o.maxImageSize)
    (hnp : o.transformedBucket = none ∨ o.putOk = false) :
    orchHandler o =
      { statusCode := 403, body := some "Requested transformed image is too big" } := by
  unfold orchHandler
  rw [if_neg (fun hne => hne hm)]
  rcases hnp with hb | hp
  · simp only [hf, ht, hb, if_pos hbig]
    rfl
  · rcases hbu : o.transformedBucket with _ | b
    · simp only [hf, ht, hbu, if_pos hbig]
      rfl
    · simp only [hf, ht, hbu, hp, Bool.false_eq_true, if_false, if_pos hbig]
      rfl

end ImageProcessing

/-- C6: for every GET request whose transform produced bytes larger than
the configured maximum and whose persistence to the configured
transformed-variant store succeeded, the response is a 302 whose
`Location` is the original path with the operations re-expressed as query
parameters (commas replaced by `&`), with `Cache-Control:
private,no-store` and a `Server-Timing` header carrying the accumulated
download/transform/upload timing signals. -/
theorem c6_oversized_redirect (o : ImageProcessing.Orch) (ct b : String) (len : Int)
    (hm : o.method = "GET") (hf : o.fetch = Except.ok ct)
    (ht : o.transformOutcome (ImageProcessing.resizeArgOf o) (ImageProcessing.formatOpOf o)
            = Except.ok len)
    (hbig : len > o.maxImageSize)
    (hb : o.transformedBucket = some b) (hp : o.putOk = true) :
    ImageProcessing.orchHandler o =
      { statusCode := 302,
        headers := [("Location", "/" ++ (ImageProcessing.splitPath o.path).1 ++ "?"
                        ++ Js.replaceChar ',' '&' (ImageProcessing.splitPath o.path).2),
                    ("Cache-Control", "private,no-store"),
                    ("Server-Timing", "img-download;dur=" ++ toString o.d1
                        ++ ",img-transform;dur=" ++ toString o.d2
                        ++ ",img-upload;dur=" ++ toString o.d3)] } := by
  unfold ImageProcessing.orchHandler
  rw [if_neg (fun hne => hne hm)]
  simp only [hf, ht, hb, hp, if_pos hbig, if_true]

/-- C6 (witness): a concrete oversized, persisted request receives the
302 redirect with the rewritten location and headers. -/
theorem c6_oversized_redirect_witness :
    ImageProcessing.orchHandler
        { method := "GET", path := "/images/a.jpg/format=webp,width=100",
          transformedBucket := some "tbucket", maxImageSize := 10, cacheTTL := "max-age=1",
          fetch := Except.ok "image/jpeg", transformOutcome := fun _ _ => Except.ok 50,
          bodyBase64 := "QQ==", putOk := true, d1 := 1, d2 := 2, d3 := 3 } =
      { statusCode := 302,
        headers := [("Location", "/images/a.jpg?format=webp&width=100"),
                    ("Cache-Control", "private,no-store"),
                    ("Server-Timing", "img-download;dur=1,img-transform;dur=2,img-upload;dur=3")] } := by
  have h := c6_oversized_redirect
    { method := "GET", path := "/images/a.jpg/format=webp,width=100",
      transformedBucket := some "tbucket", maxImageSize := 10, cacheTTL := "max-age=1",
      fetch := Except.ok "image/jpeg", transformOutcome := fun _ _ => Except.ok 50,
      bodyBase64 := "QQ==", putOk := true, d1 := 1, d2 := 2, d3 := 3 }
    "image/jpeg" "tbucket" 50 rfl rfl rfl (by decide) rfl rfl
  rw [h]
  decide

/-- C7 (counterexample): the claim fails as stated.  An oversized result
with no transformed-variant store configured is answered with status 403
whose body is the string "Requested transformed image is too big" —
body bytes are present, not absent. -/
theorem c7_oversized_403_has_body :
    (ImageProcessing.orchHandler
        { method := "GET", path := "/images/a.jpg/format=webp", transformedBucket := none,
          maxImageSize := 10, cacheTTL := "x", fetch := Except.ok "image/jpeg",
          transformOutcome := fun _ _ => Except.ok 50, bodyBase64 := "QQ==", putOk := true,
          d1 := 1, d2 := 2, d3 := 3 }).statusCode = 403 ∧
      (ImageProcessing.orchHandler
        { method := "GET", path := "/images/a.jpg/format=webp", transformedBucket := none,
          maxImageSize := 10, cacheTTL := "x", fetch := Except.ok "image/jpeg",
          transformOutcome := fun _ _ => Except.ok 50, bodyBase64 := "QQ==", putOk := true,
          d1 := 1, d2 := 2, d3 := 3 }).body ≠ none := by
  have h := ImageProcessing.oversized_unpersisted_403
    { method := "GET", path := "/images/a.jpg/format=webp", transformedBucket := none,
      maxImageSize := 10, cacheTTL := "x", fetch := Except.ok "image/jpeg",
      transformOutcome := fun _ _ => Except.ok 50, bodyBase64 := "QQ==", putOk := true,
      d1 := 1, d2 := 2, d3 := 3 }
    "image/jpeg" 50 rfl rfl rfl (by decide) (Or.inl rfl)
  rw [h]
  exact ⟨rfl, by decide⟩

/-- C7 (amended): for every GET request whose transform produced bytes
larger than the configured maximum and for which persistence was disabled
(no transformed-variant store configured) or failed, the response has
status 403 and its body is exactly the short error message "Requested
transformed image is too big" — no image payload (not base64-encoded, no
headers), though not literally zero body bytes. -/
theorem c7_oversized_unpersisted_403 (o : ImageProcessing.Orch) (ct : String) (len : Int)
    (hm : o.method = "GET") (hf : o.fetch = Except.ok ct)
    (ht : o.transformOutcome (ImageProcessing.resizeArgOf o) (ImageProcessing.formatOpOf o)
            = Except.ok len)
    (hbig : len > o.maxImageSize)
    (hnp : o.transformedBucket = none ∨ o.putOk = false) :
    ImageProcessing.orchHandler o =
      { statusCode := 403, body := some "Requested transformed image is too big",
        isBase64Encoded := false, headers := [] } :=
  ImageProcessing.oversized_unpersisted_403 o ct len hm hf ht hbig hnp

/-- C7 (witness): a concrete oversized request whose put failed receives
the 403 message response. -/
theorem c7_oversized_unpersisted_403_witness :
    ImageProcessing.orchHandler
        { method := "GET", path := "/images/a.jpg/format=webp", transformedBucket := some "tbucket",
          maxImageSize := 10, cacheTTL := "x", fetch := Except.ok "image/jpeg",
          transformOutcome := fun _ _ => Except.ok 50, bodyBase64 := "QQ==", putOk := false,
          d1 := 1, d2 := 2, d3 := 3 } =
      { statusCode := 403, body := some "Requested transformed image is too big",
        isBase64Encoded := false, headers := [] } :=
  c7_oversized_unpersisted_403
    { method := "GET", path := "/images/a.jpg/format=webp", transformedBucket := some "tbucket",
      maxImageSize := 10, cacheTTL := "x", fetch := Except.ok "image/jpeg",
      transformOutcome := fun _ _ => Except.ok 50, bodyBase64 := "QQ==", putOk := false,
      d1 := 1, d2 := 2, d3 := 3 }
    "image/jpeg" 50 rfl rfl rfl (by decide) (Or.inr rfl)

/-- C10: for every GET request whose operations string contains a truthy
width entry, the Orchestrator passes the raw `parseInt` of that value
directly as the resize width — no positivity check and no clamping to any
maximum (so `width=999999` resizes at 999999) — and when the value is
non-numeric (`parseInt` gives `NaN`) and the codec rejects a `NaN` width,
the request ends on the 500 "error transforming image" path instead of
the width being silently dropped. -/
theorem c10_orchestrator_raw_width (o : ImageProcessing.Orch) (ct v : String)
    (hm : o.method = "GET") (hf : o.fetch = Except.ok ct)
    (hw : ImageProcessing.getOp
            (ImageProcessing.parseOperations (ImageProcessing.splitPath o.path).2) "width"
          = some v) :
    ImageProcessing.resizeArgOf o = some (Js.parseInt v) ∧
      (Js.parseInt v = none →
        o.transformOutcome (some none) (ImageProcessing.formatOpOf o) = Except.error () →
        ImageProcessing.orchHandler o =
          { statusCode := 500, body := some "error transforming image" }) := by
  have hra : ImageProcessing.resizeArgOf o = some (Js.parseInt v) := by
    unfold ImageProcessing.resizeArgOf
    rw [hw]
  refine ⟨hra, fun hnan herr => ?_⟩
  unfold ImageProcessing.orchHandler
  rw [if_neg (fun hne => hne hm)]
  rw [hnan] at hra
  rw [← hra] at herr
  simp only [hf, herr]
  rfl

/-- C10 (witness): a key carrying `width=abc` makes the handler pass a
`NaN` width to resize and answer 500 "error transforming image". -/
theorem c10_orchestrator_raw_width_witness :
    ImageProcessing.orchHandler
        { method := "GET", path := "/images/a.jpg/format=webp,width=abc",
          transformedBucket := none, maxImageSize := 10, cacheTTL := "x",
          fetch := Except.ok "image/jpeg",
          transformOutcome := fun ra _ =>
            match ra with
            | some none => Except.error ()
            | _ => Except.ok 5,
          bodyBase64 := "QQ==", putOk := true, d1 := 1, d2 := 2, d3 := 3 } =
      { statusCode := 500, body := some "error transforming image" } :=
  (c10_orchestrator_raw_width
    { method := "GET", path := "/images/a.jpg/format=webp,width=abc",
      transformedBucket := none, maxImageSize := 10, cacheTTL := "x",
      fetch := Except.ok "image/jpeg",
      transformOutcome := fun ra _ =>
        match ra with
        | some none => Except.error ()
        | _ => Except.ok 5,
      bodyBase64 := "QQ==", putOk := true, d1 := 1, d2 := 2, d3 := 3 }
    "image/jpeg" "abc" rfl rfl (by decide)).2 (by decide) rfl

/-- C5: for every upload event on an image source, the fan-out joins on
all cells settling: the run always completes with status 200, a cell
whose own processing uploaded its key contributes that key to the
persisted set regardless of what every other cell did (so failure of one cell never prevents the others from completing and being persisted),
and a cell rethrows an error only when its message names memory or
allocation — and even such a run still returns 200 with the upload of every sibling retained, by the same universally quantified statement. -/
theorem c5_fanout_partial_failure (srcKey : String) (o : ImageProcessing.UploadEventOracle)
    (hg : o.getOk = true) (hi : Js.startsWith o.contentType "image/" = true) :
    ((ImageProcessing.handleS3Upload srcKey o).statusCode = 200 ∧
      ∀ spec k, spec ∈ ImageProcessing.buildTasks (decide (o.contentLength > 1048576)) →
        ImageProcessing.processAndUploadVariant spec srcKey (o.cells spec) = Except.ok (some k) →
        k ∈ (ImageProcessing.handleS3Upload srcKey o).persisted) ∧
    (∀ spec srcKey2 c m,
      ImageProcessing.processAndUploadVariant spec srcKey2 c = Except.error m →
      (Js.includes m "memory" || Js.includes m "allocation") = true) := by
  refine ⟨⟨(ImageProcessing.fanout_status srcKey o hg hi).1, ?_⟩, ?_⟩
  · intro spec k hmem hok
    exact ImageProcessing.persisted_mem srcKey o spec k hg hi hmem hok
  · intro spec srcKey2 c m h
    exact ImageProcessing.pav_rethrow spec srcKey2 c m h

/-- C5 (witness): with the webp no-width cell throwing a decode error and
every other cell uploading, the avif no-width key is still persisted and
the run returns 200. -/
theorem c5_fanout_partial_failure_witness :
    "images/a.jpg/format=avif" ∈
      (ImageProcessing.handleS3Upload "images/a.jpg"
        { getOk := true, contentType := "image/jpeg", contentLength := 100,
          cells := fun spec =>
            if spec = ("webp", none) then
              { sharpOutcome := Except.error "corrupt input for webp", putThrow := none }
            else
              { sharpOutcome := Except.ok (some 1), putThrow := none } }).persisted ∧
    (ImageProcessing.handleS3Upload "images/a.jpg"
        { getOk := true, contentType := "image/jpeg", contentLength := 100,
          cells := fun spec =>
            if spec = ("webp", none) then
              { sharpOutcome := Except.error "corrupt input for webp", putThrow := none }
            else
              { sharpOutcome := Except.ok (some 1), putThrow := none } }).statusCode = 200 := by
  have h := c5_fanout_partial_failure "images/a.jpg"
    { getOk := true, contentType := "image/jpeg", contentLength := 100,
      cells := fun spec =>
        if spec = ("webp", none) then
          { sharpOutcome := Except.error "corrupt input for webp", putThrow := none }
        else
          { sharpOutcome := Except.ok (some 1), putThrow := none } }
    rfl (by decide)
  exact ⟨h.1.2 ("avif", none) "images/a.jpg/format=avif" (by decide) (by decide), h.1.1⟩

/-- C9: for every upload event, the fan-out skips processing entirely
(returning the skip response and persisting nothing) when the declared
content type does not start with `image/`; the large-source (> 1MB)
matrix is exactly webp at no-width plus webp at each Common-Width; and in
a large-source run every persisted key is a webp key at no-width or at a
Common-Width. -/
theorem c9_skip_policy (srcKey : String) (o : ImageProcessing.UploadEventOracle)
    (hg : o.getOk = true) :
    (Js.startsWith o.contentType "image/" = false →
      ImageProcessing.handleS3Upload srcKey o =
        { statusCode := 200, body := "Skipped non-image file", persisted := [] }) ∧
    (ImageProcessing.buildTasks true =
      [("webp", none), ("webp", some 640), ("webp", some 750), ("webp", some 828),
       ("webp", some 1080), ("webp", some 1200), ("webp", some 1920)]) ∧
    (Js.startsWith o.contentType "image/" = true → o.contentLength > 1048576 →
      ∀ k ∈ (ImageProcessing.handleS3Upload srcKey o).persisted,
        k = srcKey ++ "/format=webp" ∨
          ∃ w, w ∈ ImageProcessing.COMMON_WIDTHS ∧
            k = srcKey ++ "/format=webp,width=" ++ toString w) := by
  refine ⟨?_, by decide, ?_⟩
  · intro hni
    simp [ImageProcessing.handleS3Upload, hg, hni]
  · intro hi hlarge k hk
    simp only [ImageProcessing.handleS3Upload, hg, hi] at hk
    simp only [not_true, Bool.true_eq_false, if_false, ite_false, ite_true] at hk
    rw [decide_eq_true hlarge] at hk
    rcases List.mem_filterMap.1 hk with ⟨r, hr, hro⟩
    rcases List.mem_map.1 hr with ⟨spec, hspec, hgr⟩
    have hpav : ImageProcessing.processAndUploadVariant spec srcKey (o.cells spec)
        = Except.ok (some k) := by
      rw [hgr]
      rcases r with m | _ | k2
      · exact Option.noConfusion hro
      · exact Option.noConfusion hro
      · rw [Option.some.inj hro]
    have hk2 : k = ImageProcessing.canonicalKey srcKey spec :=
      ImageProcessing.pav_ok_key spec srcKey (o.cells spec) k hpav
    subst hk2
    have hB : ImageProcessing.buildTasks true =
        [("webp", none), ("webp", some 640), ("webp", some 750), ("webp", some 828),
         ("webp", some 1080), ("webp", some 1200), ("webp", some 1920)] := by decide
    rw [hB] at hspec
    simp only [List.mem_cons, List.not_mem_nil, or_false] at hspec
    rcases hspec with rfl | rfl | rfl | rfl | rfl | rfl | rfl
    · refine Or.inl ?_
      apply strExt
      simp [String.data_append, ImageProcessing.canonicalKey,
        show ("/format=webp" : String) = "/format=" ++ "webp" from rfl]
    · refine Or.inr ⟨640, by decide, ?_⟩
      apply strExt
      simp [String.data_append, ImageProcessing.canonicalKey,
        show ("/format=webp,width=" : String) = "/format=" ++ "webp" ++ ",width=" from rfl]
    · refine Or.inr ⟨750, by decide, ?_⟩
      apply strExt
      simp [String.data_append, ImageProcessing.canonicalKey,
        show ("/format=webp,width=" : String) = "/format=" ++ "webp" ++ ",width=" from rfl]
    · refine Or.inr ⟨828, by decide, ?_⟩
      apply strExt
      simp [String.data_append, ImageProcessing.canonicalKey,
        show ("/format=webp,width=" : String) = "/format=" ++ "webp" ++ ",width=" from rfl]
    · refine Or.inr ⟨1080, by decide, ?_⟩
      apply strExt
      simp [String.data_append, ImageProcessing.canonicalKey,
        show ("/format=webp,width=" : String) = "/format=" ++ "webp" ++ ",width=" from rfl]
    · refine Or.inr ⟨1200, by decide, ?_⟩
      apply strExt
      simp [String.data_append, ImageProcessing.canonicalKey,
        show ("/format=webp,width=" : String) = "/format=" ++ "webp" ++ ",width=" from rfl]
    · refine Or.inr ⟨1920, by decide, ?_⟩
      apply strExt
      simp [String.data_append, ImageProcessing.canonicalKey,
        show ("/format=webp,width=" : String) = "/format=" ++ "webp" ++ ",width=" from rfl]

/-- C9 (witness): a non-image upload is skipped with nothing persisted. -/
theorem c9_skip_policy_witness :
    ImageProcessing.handleS3Upload "docs/readme.txt"
        { getOk := true, contentType := "text/plain", contentLength := 100,
          cells := fun _ => { sharpOutcome := Except.ok (some 1), putThrow := none } } =
      { statusCode := 200, body := "Skipped non-image file", persisted := [] } :=
  (c9_skip_policy "docs/readme.txt"
    { getOk := true, contentType := "text/plain", contentLength := 100,
      cells := fun _ => { sharpOutcome := Except.ok (some 1), putThrow := none } }
    rfl).1 (by decide)

/-- C8 (counterexample): the claim fails as stated.  Width 300 belongs to
the Common-Width Set of the Key Normalizer, and with Accept advertising webp
the normalizer emits `/images/a.jpg/format=webp,width=300` (i.e. the
store key `images/a.jpg/format=webp,width=300` behind the leading
slash), yet even a fan-out run in which every cell succeeds — so whose
persisted list is the complete key set for the source — does not persist
that key: the two components disagree on the Common-Width Set
([300,600,800,1200] vs [640,750,828,1080,1200,1920]) and on the format
set (jpeg is negotiable but never pre-computed). -/
theorem c8_common_width_not_prewarmed :
    (300 : Int) ∈ UrlRewrite.COMMON_WIDTHS ∧
    (UrlRewrite.handlerJs
        { uri := "/images/a.jpg", acceptHeader := some (some "webp"),
          querystring := [("width", "300")] }).uri
      = "/" ++ "images/a.jpg/format=webp,width=300" ∧
    "images/a.jpg/format=webp,width=300" ∉
      (ImageProcessing.handleS3Upload "images/a.jpg"
        { getOk := true, contentType := "image/jpeg", contentLength := 100,
          cells := fun _ => { sharpOutcome := Except.ok (some 1), putThrow := none } }).persisted := by
  refine ⟨by decide, by decide, by decide⟩

/-- C8 (amended): the two components agree only on width 1200 (the sole
member of both Common-Width Sets) and on the formats webp and avif: for a
request for width 1200 on path `/srcKey` whose negotiated format `f` is
webp or avif, the normalizer emits `/` followed by exactly the canonical
key of the `(f, 1200)` cell, and for a small (≤ 1MB) image source whose
`(f, 1200)` cell succeeds, that key is among the keys the fan-out
persists, so the fast-path request is recognized as a hit. -/
theorem c8_width1200_prewarmed (srcKey : String) (o : ImageProcessing.UploadEventOracle)
    (req : UrlRewrite.CfRequest) (a v f k : String)
    (hg : o.getOk = true) (hi : Js.startsWith o.contentType "image/" = true)
    (hsmall : ¬ o.contentLength > 1048576)
    (hu : req.uri = "/" ++ srcKey)
    (ha : req.acceptHeader = some (some a))
    (hf : UrlRewrite.negotiatedFormat req = f)
    (hfw : f = "webp" ∨ f = "avif")
    (hl : req.querystring.lookup "width" = some v)
    (hp : Js.parseInt v = some 1200)
    (hcell : ImageProcessing.processAndUploadVariant (f, some 1200) srcKey
               (o.cells (f, some 1200)) = Except.ok (some k)) :
    (UrlRewrite.handlerJs req).uri = "/" ++ k ∧
      k ∈ (ImageProcessing.handleS3Upload srcKey o).persisted ∧
      (1200 : Int) ∈ UrlRewrite.COMMON_WIDTHS ∧
      (1200 : Int) ∈ ImageProcessing.COMMON_WIDTHS := by
  have hk : k = ImageProcessing.canonicalKey srcKey (f, some 1200) :=
    ImageProcessing.pav_ok_key _ _ _ _ hcell
  have hmem : ((f, some 1200) : String × Option Int) ∈
      ImageProcessing.buildTasks (decide (o.contentLength > 1048576)) := by
    rw [decide_eq_false hsmall]
    rcases hfw with rfl | rfl <;> decide
  refine ⟨?_, ImageProcessing.persisted_mem srcKey o (f, some 1200) k hg hi hmem hcell,
    by decide, by decide⟩
  have hwf : req.acceptHeader ≠ some none := by
    rw [ha]
    simp
  rw [UrlRewrite.handler_characterization req hwf]
  dsimp only
  rw [hl]
  unfold UrlRewrite.widthSuffix
  simp only [hp]
  rw [if_pos (by norm_num : (0 : Int) < 1200), if_neg (by norm_num : ¬ (1200 : Int) > 4000)]
  rw [hu, hf, hk]
  simp only [ImageProcessing.canonicalKey]
  apply strExt
  simp [String.data_append]

/-- C8 (witness): the concrete width-1200 webp request on
`/images/a.jpg` is emitted as `/images/a.jpg/format=webp,width=1200`,
which an all-success fan-out run on a small source persists. -/
theorem c8_width1200_prewarmed_witness :
    (UrlRewrite.handlerJs
        { uri := "/images/a.jpg", acceptHeader := some (some "webp"),
          querystring := [("width", "1200")] }).uri
      = "/" ++ "images/a.jpg/format=webp,width=1200" ∧
    "images/a.jpg/format=webp,width=1200" ∈
      (ImageProcessing.handleS3Upload "images/a.jpg"
        { getOk := true, contentType := "image/jpeg", contentLength := 100,
          cells := fun _ => { sharpOutcome := Except.ok (some 1), putThrow := none } }).persisted ∧
    (1200 : Int) ∈ UrlRewrite.COMMON_WIDTHS ∧
    (1200 : Int) ∈ ImageProcessing.COMMON_WIDTHS :=
  c8_width1200_prewarmed "images/a.jpg"
    { getOk := true, contentType := "image/jpeg", contentLength := 100,
      cells := fun _ => { sharpOutcome := Except.ok (some 1), putThrow := none } }
    { uri := "/images/a.jpg", acceptHeader := some (some "webp"),
      querystring := [("width", "1200")] }
    "webp" "1200" "webp" "images/a.jpg/format=webp,width=1200"
    rfl (by decide) (by decide) (by decide) rfl (by decide) (Or.inl rfl) rfl
    (by decide) (by decide)
